import Mathlib

/-!
Verification of the agent bootstrap layer: keyring derivation from cluster
tokens, peer-source aggregation and join ordering, and the consensus
initializer with its passive-reset recovery callback.

The definitions below are a shallow embedding of `agent/config.go` and the
`cmdopts` peering code. External collaborators (the gossip keyring
constructor, the raft snapshot store) and repository code outside the
sources at hand (`commandutils.ClusterJoin`, `commandutils.RaftStoreFilepath`,
`raftutil.NewProtocol`) are modelled from the specification at their
interface boundary; each such definition says so in its doc comment.
Machine integers are modelled as `Nat`/`Int` with explicit reduction
modulo `2^32` where the Go code relies on 32-bit wraparound.
-/

namespace BwAgent

/-! ### SHA-256 (Go `crypto/sha256.Sum256`)

The keyring derivation hashes every token with SHA-256. The function is
reproduced here over byte lists (`Nat` values below 256), with 32-bit
words as `Nat` reduced modulo `2^32`. -/

/-- 32-bit word modulus. -/
def w32 : Nat := 2 ^ 32

/-- Right rotation of a 32-bit word. For `x < 2^32` the two parts occupy
disjoint bit ranges, so addition is exact. -/
def rotr (n x : Nat) : Nat := (x % 2 ^ n) * 2 ^ (32 - n) + x / 2 ^ n

/-- Logical right shift. -/
def shr (n x : Nat) : Nat := x / 2 ^ n

def bigSigma0 (x : Nat) : Nat := rotr 2 x ^^^ rotr 13 x ^^^ rotr 22 x

def bigSigma1 (x : Nat) : Nat := rotr 6 x ^^^ rotr 11 x ^^^ rotr 25 x

def smallSigma0 (x : Nat) : Nat := rotr 7 x ^^^ rotr 18 x ^^^ shr 3 x

def smallSigma1 (x : Nat) : Nat := rotr 17 x ^^^ rotr 19 x ^^^ shr 10 x

/-- Choice function; complement of a 32-bit word is xor with `2^32 - 1`. -/
def ch (x y z : Nat) : Nat := (x &&& y) ^^^ ((x ^^^ 0xffffffff) &&& z)

/-- Majority function. -/
def maj (x y z : Nat) : Nat := (x &&& y) ^^^ (x &&& z) ^^^ (y &&& z)

/-- The 64 SHA-256 round constants (FIPS 180-4 §4.2.2), in decimal. -/
def sha256K : List Nat :=
  [1116352408, 1899447441, 3049323471, 3921009573, 961987163, 1508970993,
   2453635748, 2870763221, 3624381080, 310598401, 607225278, 1426881987,
   1925078388, 2162078206, 2614888103, 3248222580, 3835390401, 4022224774,
   264347078, 604807628, 770255983, 1249150122, 1555081692, 1996064986,
   2554220882, 2821834349, 2952996808, 3210313671, 3336571891, 3584528711,
   113926993, 338241895, 666307205, 773529912, 1294757372, 1396182291,
   1695183700, 1986661051, 2177026350, 2456956037, 2730485921, 2820302411,
   3259730800, 3345764771, 3516065817, 3600352804, 4094571909, 275423344,
   430227734, 506948616, 659060556, 883997877, 958139571, 1322822218,
   1537002063, 1747873779, 1955562222, 2024104815, 2227730452, 2361852424,
   2428436474, 2756734187, 3204031479, 3329325298]

/-- The eight 32-bit words of a SHA-256 chaining value. -/
structure Hash8 where
  h0 : Nat
  h1 : Nat
  h2 : Nat
  h3 : Nat
  h4 : Nat
  h5 : Nat
  h6 : Nat
  h7 : Nat
deriving Repr, DecidableEq

/-- SHA-256 initial hash value (FIPS 180-4 §5.3.3), in decimal. -/
def sha256H0 : Hash8 :=
  ⟨1779033703, 3144134277, 1013904242, 2773480762,
   1359893119, 2600822924, 528734635, 1541459225⟩

/-- Big-endian byte decomposition of `x` into `n` bytes. -/
def bytesBE : Nat → Nat → List Nat
  | 0, _ => []
  | k + 1, x => (x / 2 ^ (8 * k)) % 256 :: bytesBE k x

/-- Group a byte list into big-endian 32-bit words, four bytes each. -/
def toWords : List Nat → List Nat
  | a :: b :: c :: d :: rest => (a * 2 ^ 24 + b * 2 ^ 16 + c * 2 ^ 8 + d) :: toWords rest
  | _ => []

/-- Message-schedule extension, operating on the schedule reversed (most
recent word first); prepends `n` further words. -/
def schedExtend : Nat → List Nat → List Nat
  | 0, w => w
  | n + 1, w =>
      schedExtend n
        (((smallSigma1 (w.getD 1 0) + w.getD 6 0 + smallSigma0 (w.getD 14 0) + w.getD 15 0) % w32) :: w)

/-- The 64-entry message schedule of one 64-byte block. -/
def schedule (block : List Nat) : List Nat :=
  (schedExtend 48 (toWords block).reverse).reverse

/-- The eight working variables of the compression loop. -/
structure Work8 where
  a : Nat
  b : Nat
  c : Nat
  d : Nat
  e : Nat
  f : Nat
  g : Nat
  h : Nat
deriving Repr, DecidableEq

/-- One round of the compression function; `kw` is the pair of round
constant and schedule word. -/
def roundStep (st : Work8) (kw : Nat × Nat) : Work8 :=
  let t1 := (st.h + bigSigma1 st.e + ch st.e st.f st.g + kw.1 + kw.2) % w32
  let t2 := (bigSigma0 st.a + maj st.a st.b st.c) % w32
  ⟨(t1 + t2) % w32, st.a, st.b, st.c, (st.d + t1) % w32, st.e, st.f, st.g⟩

/-- Compression of one 64-byte block into the chaining value. -/
def compress (hv : Hash8) (block : List Nat) : Hash8 :=
  let st := (sha256K.zip (schedule block)).foldl roundStep
    ⟨hv.h0, hv.h1, hv.h2, hv.h3, hv.h4, hv.h5, hv.h6, hv.h7⟩
  ⟨(hv.h0 + st.a) % w32, (hv.h1 + st.b) % w32, (hv.h2 + st.c) % w32, (hv.h3 + st.d) % w32,
   (hv.h4 + st.e) % w32, (hv.h5 + st.f) % w32, (hv.h6 + st.g) % w32, (hv.h7 + st.h) % w32⟩

/-- SHA-256 padding: a `0x80` byte, zeros to 56 mod 64, then the bit length
as eight big-endian bytes. -/
def sha256pad (msg : List Nat) : List Nat :=
  let L := msg.length
  let k := (120 - (L + 1) % 64) % 64
  msg ++ 0x80 :: List.replicate k 0 ++ bytesBE 8 (8 * L)

/-- Split a byte list into 64-byte blocks. -/
def chunks64 : List Nat → List (List Nat)
  | [] => []
  | x :: xs => ((x :: xs).take 64) :: chunks64 ((x :: xs).drop 64)
termination_by l => l.length
decreasing_by simp [List.length_drop]; omega

/-- SHA-256 of a byte list: 32 output bytes. -/
def sha256 (msg : List Nat) : List Nat :=
  let hv := (chunks64 (sha256pad msg)).foldl compress sha256H0
  bytesBE 4 hv.h0 ++ bytesBE 4 hv.h1 ++ bytesBE 4 hv.h2 ++ bytesBE 4 hv.h3 ++
  bytesBE 4 hv.h4 ++ bytesBE 4 hv.h5 ++ bytesBE 4 hv.h6 ++ bytesBE 4 hv.h7

/-- UTF-8 bytes of a Go string. -/
def strBytes (s : String) : List Nat := s.toUTF8.toList.map (fun b => b.toNat)

/-- The hash the keyring derivation applies to each token:
`sha256.Sum256([]byte(token))`. -/
def hashToken (s : String) : List Nat := sha256 (strBytes s)

/-! ### Gossip keyring (hashicorp/memberlist interface) -/

/-- A gossip keyring: the primary encryption key plus the legacy keys
retained for verification. -/
structure Keyring where
  primaryKey : List Nat
  legacyKeys : List (List Nat)
deriving Repr, DecidableEq

/-- A key must be 16, 24 or 32 bytes (AES-128/192/256). -/
def ValidateKey (k : List Nat) : Bool :=
  k.length == 16 || k.length == 24 || k.length == 32

/-- Modelled from the spec: the gossip membership layer is an external
collaborator that accepts a keyring of a primary key plus legacy keys;
construction fails only when it rejects a malformed key (a length other
than 16, 24 or 32 bytes) or an empty primary key alongside legacy keys. -/
def NewKeyring (keys : List (List Nat)) (primaryKey : List Nat) : Except String Keyring :=
  if primaryKey.isEmpty then
    if keys.isEmpty then .ok ⟨primaryKey, keys⟩
    else .error "empty primary key not allowed"
  else if (primaryKey :: keys).all ValidateKey then .ok ⟨primaryKey, keys⟩
  else .error "key size must be 16, 24 or 32 bytes"

/-! ### Agent configuration (`agent/config.go`) -/

/-- `net.TCPAddr`, reduced to the fields the embedded code reads. -/
structure TCPAddr where
  ip : String
  port : Int
deriving Repr, DecidableEq

/-- The `bootstrap` section of the agent configuration. -/
structure bootstrap where
  Attempts : Int
  ReadOnly : Bool
  ArchiveDirectory : String
deriving Repr, DecidableEq

/-- The anonymous `credentials` struct of the agent configuration. -/
structure CredentialsStruct where
  Mode : String
  Directory : String
deriving Repr, DecidableEq

/-- `dnsBind`. -/
structure dnsBind where
  TTL : Nat
  Frequency : Int
deriving Repr, DecidableEq

/-- The anonymous `awsBootstrap` struct of the agent configuration. -/
structure AWSBootstrapStruct where
  AutoscalingGroups : List String
deriving Repr, DecidableEq

/-- `Config` — configuration for agent processes. Durations are
nanosecond counts; nilable pointers are `Option`. -/
structure Config where
  Name : String
  Root : String
  KeepN : Int
  MinimumNodes : Int
  Bootstrap : bootstrap
  SnapshotFrequency : Int
  P2PBind : Option TCPAddr
  P2PAdvertised : Option TCPAddr
  AlternateBinds : List TCPAddr
  ClusterTokens : List String
  ServerName : String
  CA : String
  CredentialsMode : String
  CredentialsDir : String
  Credentials : CredentialsStruct
  DNSBind : dnsBind
  DNSBootstrap : List String
  AWSBootstrap : AWSBootstrapStruct
deriving Repr, DecidableEq

/-- `Config.Sanitize`: a copy of the configuration with the cluster
tokens replaced by an empty slice (the receiver is a value, so the
original is untouched). -/
def Config.Sanitize (t : Config) : Config :=
  { t with ClusterTokens := [] }

/-- `Config.Keyring` — hashes each cluster token, then builds the gossip
keyring: zero tokens hash the server name as sole primary key; one token
is the sole primary key; otherwise the first token's hash is primary and
the rest are legacy keys. -/
def Config.Keyring (t : Config) : Except String Keyring :=
  let tokens := t.ClusterTokens.map (fun token => sha256 (strBytes token))
  match tokens with
  | [] => NewKeyring [] (sha256 (strBytes t.ServerName))
  | [tok] => NewKeyring [] tok
  | tok :: rest => NewKeyring rest tok

/-! ### Peering sources (`cmdopts`, `clustering/peering`) -/

/-- The peer-discovery source variants the joiner composes. A disabled
slot is the no-op `staticTCP []`. -/
inductive Source
  | staticTCP (addrs : List TCPAddr)
  | dns (port : Int) (hosts : List String)
  | awsAutoscaling (port : Int) (supplimentalGroups : List String)
  | gcloudTargetPool (port : Int) (maximum : Int)
  | p2p (address : String)
  | snapshotFile (path : String)
deriving Repr, DecidableEq

/-- `peering.NewStaticTCP`. -/
def NewStaticTCP (addrs : List TCPAddr) : Source := .staticTCP addrs

/-- The static sources: the explicitly configured address list and the
disabled-slot no-op. -/
def Source.isStatic : Source → Bool
  | .staticTCP _ => true
  | _ => false

/-- The persisted-snapshot source. -/
def Source.isSnapshot : Source → Bool
  | .snapshotFile _ => true
  | _ => false

/-- The live discovery sources: DNS, AWS autoscaling groups, GCloud
target pools and secured peer-to-peer discovery. -/
def Source.isLiveDiscovery : Source → Bool
  | .dns _ _ => true
  | .awsAutoscaling _ _ => true
  | .gcloudTargetPool _ _ => true
  | .p2p _ => true
  | _ => false

/-- Availability of the external credential material and network
facilities that `p2ppeering` depends on. Modelled from the spec: the
TLS/credential provider may fail if credential material is absent or
malformed, and the discovery port may be overridden by the environment. -/
structure CredEnv where
  signerOk : Bool
  tlsOk : Bool
  dialerOk : Bool
  portOverride : Option String
deriving Repr, DecidableEq

/-- `net.JoinHostPort` for the addresses formed here. -/
def joinHostPort (host port : String) : String := host ++ ":" ++ port

/-- The dereference of the `P2PBind` pointer performed by the Go code
(agents always configure a bind before peering). -/
def Config.p2pPort (c : Config) : Int := (c.P2PBind.getD ⟨"", 0⟩).port

/-- `p2ppeering` — builds the secured peer-to-peer discovery source. It
needs the local signing identity, the TLS client configuration and a
dialer; each may fail, failing the construction. -/
def p2ppeering (env : CredEnv) (c : Config) : Except String Source :=
  let address := joinHostPort c.ServerName (env.portOverride.getD (toString c.p2pPort))
  if !env.signerOk then .error "unable to create agent signer"
  else if !env.tlsOk then .error "unable to build tls configuration"
  else if !env.dialerOk then .error "unable to build dialer"
  else .ok (.p2p address)

/-- The CLI peering flags. -/
structure Peering where
  Bootstrap : List TCPAddr
  DNSEnabled : Bool
  AWSEnabled : Bool
  GCloudEnabled : Bool
deriving Repr, DecidableEq

/-- Modelled from the spec: `commandutils.ClusterJoin` (repository code
outside the sources at hand) aggregates the given peering sources and
attempts them in the order given, bounded by the retry budget. Its
attempt order — the content the claims are about — is the source list
itself. -/
def ClusterJoin (config : Config) (sources : List Source) : Except String (List Source) :=
  .ok sources

/-- `Peering.Join` — assembles the peering sources (substituting the
no-op source for a secured p2p source that cannot be constructed,
and for each disabled discovery flag) and hands them to `ClusterJoin`
in the order written in the source. -/
def Peering.Join (env : CredEnv) (t : Peering) (config : Config) (snap : String) :
    Except String (List Source) :=
  let clipeers := NewStaticTCP t.Bootstrap
  let p2ppeers :=
    match p2ppeering env config with
    | .ok s => s
    | .error _ => NewStaticTCP []
  let dnspeers :=
    if t.DNSEnabled then Source.dns config.p2pPort (config.DNSBootstrap ++ [config.ServerName])
    else NewStaticTCP []
  let awspeers :=
    if t.AWSEnabled then Source.awsAutoscaling config.p2pPort config.AWSBootstrap.AutoscalingGroups
    else NewStaticTCP []
  let gcloudpeers :=
    if t.GCloudEnabled then Source.gcloudTargetPool config.p2pPort config.MinimumNodes
    else NewStaticTCP []
  ClusterJoin config
    [clipeers, p2ppeers, awspeers, gcloudpeers, Source.snapshotFile snap, dnspeers]

/-! ### Filesystem model and consensus storage

Paths are component lists. Filesystem effects are explicit state
passing; each fallible primitive consults a fault flag carried in the
state, so error paths are first-class. Every call also returns the
operation performed, giving the traces the ordering claims are about. -/

/-- A filesystem path as its components. -/
abbrev Path := List String

/-- `p` lies at or under `dir`. -/
def underDir (dir p : Path) : Bool := dir.isPrefixOf p

/-- Filesystem state: existing directories and files, plus fault flags
for each fallible primitive the consensus initializer touches. -/
structure FS where
  dirs : List Path
  files : List Path
  failRemove : Bool
  failMkdir : Bool
  failLogStore : Bool
  failSnapStore : Bool
deriving Repr, DecidableEq

/-- Errors of the two directory primitives, tagged with the step. -/
inductive FSErr
  | removeFailed (dir : Path)
  | mkdirFailed (dir : Path)
deriving Repr, DecidableEq

/-- `os.RemoveAll`: delete the directory and everything under it, or
report the failure leaving the state unchanged. -/
def removeAll (fs : FS) (dir : Path) : Option FSErr × FS :=
  if fs.failRemove then (some (.removeFailed dir), fs)
  else (none,
    { fs with
      dirs := fs.dirs.filter (fun p => !underDir dir p),
      files := fs.files.filter (fun p => !underDir dir p) })

/-- `os.MkdirAll`: create the directory if absent; succeeds when it
already exists. -/
def mkdirAll (fs : FS) (dir : Path) : Option FSErr × FS :=
  if fs.failMkdir then (some (.mkdirFailed dir), fs)
  else (none, { fs with dirs := if dir ∈ fs.dirs then fs.dirs else fs.dirs ++ [dir] })

/-- `errorsx.Compact`: the first non-nil error of its arguments. -/
def compact : Option FSErr → Option FSErr → Option FSErr
  | some e, _ => some e
  | none, e2 => e2

/-- The on-disk log store handle (`raftutil.Storage`). -/
structure Storage where
  path : Path
deriving Repr, DecidableEq

/-- The snapshot store handle: its directory and how many snapshot files
it retains. -/
structure SnapshotStore where
  dir : Path
  retain : Nat
deriving Repr, DecidableEq

/-- Modelled from the spec: `commandutils.RaftStoreFilepath` (repository
code outside the sources at hand) constructs the on-disk log store at
the given file path, fallibly. -/
def RaftStoreFilepath (fs : FS) (path : Path) : Except String Storage × FS :=
  if fs.failLogStore then (.error "unable to create raft store", fs)
  else (.ok ⟨path⟩,
    { fs with files := if path ∈ fs.files then fs.files else fs.files ++ [path] })

/-- Modelled from the spec: `raft.NewFileSnapshotStore` is an external
collaborator constructing a snapshot store in `dir` that retains at most
`retain` snapshot files, fallibly. -/
def NewFileSnapshotStore (fs : FS) (dir : Path) (retain : Nat) :
    Except String SnapshotStore × FS :=
  if fs.failSnapStore then (.error "unable to create snapshot store", fs)
  else (.ok ⟨dir, retain⟩, fs)

/-- The composed errors of the passive-reset callback, identifying the
failing step. -/
inductive ResetErr
  | fsErr (e : FSErr)
  | logStoreErr (msg : String)
  | snapStoreErr (msg : String)
deriving Repr, DecidableEq

/-- The filesystem operations a reset attempt performs, in order. -/
inductive FSOp
  | opRemoveAll (dir : Path)
  | opMkdirAll (dir : Path)
  | opBuildLogStore (path : Path)
  | opBuildSnapshotStore (dir : Path) (retain : Nat)
deriving Repr, DecidableEq

/-- The passive-reset callback wired into the consensus protocol:
delete the storage directory and recreate it (both primitives run, their
errors compacted, mirroring the Go argument evaluation), then construct
the log store at `dir/state.bin` and a snapshot store retaining 5
snapshots; any failure stops the sequence with an error naming the step.
Returns the result, the final state and the trace of attempted
operations. -/
def passiveReset (dir : Path) (fs : FS) :
    Except ResetErr (Storage × SnapshotStore) × FS × List FSOp :=
  let r1 := removeAll fs dir
  let r2 := mkdirAll r1.2 dir
  match compact r1.1 r2.1 with
  | some e => (.error (.fsErr e), r2.2, [.opRemoveAll dir, .opMkdirAll dir])
  | none =>
    match RaftStoreFilepath r2.2 (dir ++ ["state.bin"]) with
    | (.error m, fs3) =>
        (.error (.logStoreErr m), fs3,
         [.opRemoveAll dir, .opMkdirAll dir, .opBuildLogStore (dir ++ ["state.bin"])])
    | (.ok s, fs3) =>
      match NewFileSnapshotStore fs3 dir 5 with
      | (.error m, fs4) =>
          (.error (.snapStoreErr m), fs4,
           [.opRemoveAll dir, .opMkdirAll dir, .opBuildLogStore (dir ++ ["state.bin"]),
            .opBuildSnapshotStore dir 5])
      | (.ok ss, fs4) =>
          (.ok (s, ss), fs4,
           [.opRemoveAll dir, .opMkdirAll dir, .opBuildLogStore (dir ++ ["state.bin"]),
            .opBuildSnapshotStore dir 5])

/-! ### Consensus initializer (`Peering.Raft`, `raftutil`) -/

/-- The consensus protocol instance as configured by the options the
initializer passes: quorum minimum, single-node mode and the
passive-reset callback. -/
structure Protocol where
  quorumMinimum : Int
  enableSingleNode : Bool
  passiveResetCB : Option (FS → Except ResetErr (Storage × SnapshotStore) × FS × List FSOp)

/-- `raftutil.ProtocolOption`. -/
def ProtocolOption := Protocol → Protocol

def ProtocolOptionQuorumMinimum (n : Int) : ProtocolOption :=
  fun p => { p with quorumMinimum := n }

def ProtocolOptionEnableSingleNode (b : Bool) : ProtocolOption :=
  fun p => { p with enableSingleNode := b }

def ProtocolOptionPassiveReset
    (cb : FS → Except ResetErr (Storage × SnapshotStore) × FS × List FSOp) : ProtocolOption :=
  fun p => { p with passiveResetCB := some cb }

/-- Modelled from the spec: `raftutil.NewProtocol` (repository code
outside the sources at hand) constructs the consensus protocol by
applying the given options in order over a default configuration. -/
def NewProtocol (options : List ProtocolOption) : Protocol :=
  options.foldl (fun p o => o p) ⟨0, false, none⟩

/-- `Peering.Raft` — creates the consensus storage directory
`Root/raft.d` if absent, then starts the protocol with the quorum
minimum from the configuration, single-node mode iff that minimum is at
most 1, and the passive-reset callback for that directory, with any
caller options applied after the defaults. -/
def Peering.Raft (t : Peering) (conf : Config) (fs : FS) (options : List ProtocolOption) :
    Except FSErr Protocol × FS :=
  let dir : Path := [conf.Root, "raft.d"]
  match mkdirAll fs dir with
  | (some e, fs1) => (.error e, fs1)
  | (none, fs1) =>
      let defaultOptions : List ProtocolOption :=
        [ProtocolOptionQuorumMinimum conf.MinimumNodes,
         ProtocolOptionEnableSingleNode (decide (conf.MinimumNodes ≤ 1)),
         ProtocolOptionPassiveReset (passiveReset dir)]
      (.ok (NewProtocol (defaultOptions ++ options)), fs1)

/-! ### Statements quoted from the specification -/

/-- The specification's join-order sentence, as stated: in every join
cycle the persisted-snapshot source is consulted before any live
discovery source. -/
def JoinSnapshotBeforeDiscovery : Prop :=
  ∀ (env : CredEnv) (t : Peering) (config : Config) (snap : String) (l : List Source),
    Peering.Join env t config snap = .ok l →
    ∀ i j : Nat,
      (l.getD i (.staticTCP [])).isSnapshot = true →
      (l.getD j (.staticTCP [])).isLiveDiscovery = true → i < j

/-! ### Concrete inputs used by the witnesses -/

/-- A configuration mirroring the `NewConfig` defaults, used as a
concrete input. -/
def baseConfig : Config where
  Name := "localhost"
  Root := "/var/cache/bw"
  KeepN := 3
  MinimumNodes := 3
  Bootstrap := ⟨2147483647, false, ""⟩
  SnapshotFrequency := 3600000000000
  P2PBind := some ⟨"127.0.0.1", 2001⟩
  P2PAdvertised := none
  AlternateBinds := []
  ClusterTokens := []
  ServerName := "prod-cluster"
  CA := ""
  CredentialsMode := ""
  CredentialsDir := ""
  Credentials := ⟨"", ""⟩
  DNSBind := ⟨60, 3600000000000⟩
  DNSBootstrap := []
  AWSBootstrap := ⟨[]⟩

/-! ## Theorems -/

/-- Big-endian decomposition yields exactly `n` bytes. -/
theorem bytesBE_length (n x : Nat) : (bytesBE n x).length = n := by
  induction n generalizing x with
  | zero => rfl
  | succ k ih => simp [bytesBE, ih]

/-- SHA-256 always produces 32 bytes. -/
theorem sha256_length (msg : List Nat) : (sha256 msg).length = 32 := by
  simp [sha256, bytesBE_length]

/-- A SHA-256 digest is an acceptable gossip key (32 bytes). -/
theorem validateKey_sha256 (msg : List Nat) : ValidateKey (sha256 msg) = true := by
  simp [ValidateKey, sha256_length]

/-- A SHA-256 digest is never the empty key. -/
theorem sha256_ne_nil (msg : List Nat) : (sha256 msg).isEmpty = false := by
  have h := sha256_length msg
  cases hmsg : sha256 msg with
  | nil => rw [hmsg] at h; simp at h
  | cons a l => rfl

/-- Keyring construction succeeds on digests: every SHA-256 key passes
validation, so the keys come back verbatim. -/
theorem NewKeyring_hashes (keys : List (List Nat)) (pk : List Nat)
    (hpk : ∃ m, pk = sha256 m) (hks : ∀ k ∈ keys, ∃ m, k = sha256 m) :
    NewKeyring keys pk = .ok ⟨pk, keys⟩ := by
  obtain ⟨m, rfl⟩ := hpk
  have hall : ((sha256 m) :: keys).all ValidateKey = true := by
    simp only [List.all_cons, validateKey_sha256, Bool.true_and, List.all_eq_true]
    intro k hk
    obtain ⟨mk, rfl⟩ := hks k hk
    exact validateKey_sha256 mk
  simp [NewKeyring, sha256_ne_nil, hall]

/-- `Config.Keyring` on a non-empty token list: the first token's hash
is primary, the remaining tokens' hashes are the legacy keys in order. -/
theorem Keyring_eq_cons (c : Config) (t0 : String) (rest : List String)
    (h : c.ClusterTokens = t0 :: rest) :
    c.Keyring = .ok ⟨hashToken t0, rest.map hashToken⟩ := by
  unfold Config.Keyring
  rw [h]
  cases rest with
  | nil =>
      simp only [List.map_cons, List.map_nil]
      exact NewKeyring_hashes [] _ ⟨_, rfl⟩ (by simp)
  | cons t1 ts =>
      simp only [List.map_cons]
      refine NewKeyring_hashes _ _ ⟨_, rfl⟩ ?_
      intro k hk
      rcases List.mem_cons.mp hk with rfl | hk
      · exact ⟨_, rfl⟩
      · obtain ⟨a, _, rfl⟩ := List.mem_map.mp hk
        exact ⟨_, rfl⟩

/-- `Config.Keyring` on an empty token list: the server name's hash is
the sole primary key. -/
theorem Keyring_eq_nil (c : Config) (h : c.ClusterTokens = []) :
    c.Keyring = .ok ⟨hashToken c.ServerName, []⟩ := by
  unfold Config.Keyring
  rw [h]
  simp only [List.map_nil]
  exact NewKeyring_hashes [] _ ⟨_, rfl⟩ (by simp)

/-- Claim C2: with more than one cluster token, `Config.Keyring` makes
the first token's SHA-256 hash the primary key and the remaining
tokens' hashes the legacy keys in order, so the legacy-key count is one
less than the token count. -/
theorem keyring_multi_token_rotation (c : Config) (t0 t1 : String) (rest : List String)
    (h : c.ClusterTokens = t0 :: t1 :: rest) :
    c.Keyring = .ok ⟨hashToken t0, (t1 :: rest).map hashToken⟩ ∧
    ((t1 :: rest).map hashToken).length = c.ClusterTokens.length - 1 :=
  ⟨Keyring_eq_cons c t0 (t1 :: rest) h, by simp [h]⟩

/-- Witness for C2 at the spec's scenario: tokens `["new", "old"]` give
primary key `hash "new"` and legacy keys `[hash "old"]`. -/
theorem keyring_multi_token_rotation_witness :
    ({ baseConfig with ClusterTokens := ["new", "old"] } : Config).ClusterTokens =
      "new" :: "old" :: [] ∧
    (({ baseConfig with ClusterTokens := ["new", "old"] } : Config).Keyring =
        .ok ⟨hashToken "new", [hashToken "old"]⟩ ∧
      ([hashToken "old"]).length =
        ({ baseConfig with ClusterTokens := ["new", "old"] } : Config).ClusterTokens.length - 1) :=
  ⟨rfl, keyring_multi_token_rotation _ "new" "old" [] rfl⟩

/-- Claim C3: with zero cluster tokens, `Config.Keyring` does not fail;
it hashes the configured server name and uses that digest as the sole
primary key, with no legacy keys. -/
theorem keyring_zero_tokens (c : Config) (h : c.ClusterTokens = []) :
    c.Keyring = .ok ⟨hashToken c.ServerName, []⟩ :=
  Keyring_eq_nil c h

/-- Witness for C3 at the spec's scenario: zero tokens and server name
`"prod-cluster"`. -/
theorem keyring_zero_tokens_witness :
    baseConfig.ClusterTokens = [] ∧
    baseConfig.Keyring = .ok ⟨hashToken baseConfig.ServerName, []⟩ :=
  ⟨rfl, keyring_zero_tokens baseConfig rfl⟩

/-- Claim C8: every key of the keyring `Config.Keyring` hands to the
gossip layer — the primary and each legacy key — is the SHA-256 hash of
a configured token or of the server name; no raw token crosses. -/
theorem keyring_only_hashes_cross (c : Config) (ring : Keyring)
    (h : c.Keyring = .ok ring) :
    ∀ k ∈ ring.primaryKey :: ring.legacyKeys,
      ∃ s, (s ∈ c.ClusterTokens ∨ s = c.ServerName) ∧ k = hashToken s := by
  cases hcts : c.ClusterTokens with
  | nil =>
      rw [Keyring_eq_nil c hcts] at h
      injection h with h
      subst h
      intro k hk
      simp only [List.mem_cons, List.not_mem_nil, or_false] at hk
      exact ⟨c.ServerName, Or.inr rfl, hk⟩
  | cons t0 rest =>
      rw [Keyring_eq_cons c t0 rest hcts] at h
      injection h with h
      subst h
      intro k hk
      rcases List.mem_cons.mp hk with rfl | hk
      · exact ⟨t0, Or.inl (hcts ▸ List.mem_cons_self t0 rest), rfl⟩
      · obtain ⟨s, hs, rfl⟩ := List.mem_map.mp hk
        exact ⟨s, Or.inl (hcts ▸ List.mem_cons_of_mem t0 hs), rfl⟩

/-- Witness for C8 at tokens `["a", "b"]`. -/
theorem keyring_only_hashes_cross_witness :
    ({ baseConfig with ClusterTokens := ["a", "b"] } : Config).Keyring =
      .ok ⟨hashToken "a", [hashToken "b"]⟩ ∧
    ∀ k ∈ hashToken "a" :: [hashToken "b"],
      ∃ s, (s ∈ ({ baseConfig with ClusterTokens := ["a", "b"] } : Config).ClusterTokens ∨
             s = ({ baseConfig with ClusterTokens := ["a", "b"] } : Config).ServerName) ∧
           k = hashToken s :=
  ⟨Keyring_eq_cons _ "a" ["b"] rfl,
   keyring_only_hashes_cross _ _ (Keyring_eq_cons _ "a" ["b"] rfl)⟩

/-- Claim C10: `Config.Sanitize` returns a copy whose `ClusterTokens`
is the empty slice and whose every other field matches the receiver;
the receiver is a value, so the original is untouched by construction
of the embedding. -/
theorem sanitize_frame (c : Config) :
    (c.Sanitize).ClusterTokens = [] ∧
    (c.Sanitize).Name = c.Name ∧ (c.Sanitize).Root = c.Root ∧
    (c.Sanitize).KeepN = c.KeepN ∧ (c.Sanitize).MinimumNodes = c.MinimumNodes ∧
    (c.Sanitize).Bootstrap = c.Bootstrap ∧
    (c.Sanitize).SnapshotFrequency = c.SnapshotFrequency ∧
    (c.Sanitize).P2PBind = c.P2PBind ∧ (c.Sanitize).P2PAdvertised = c.P2PAdvertised ∧
    (c.Sanitize).AlternateBinds = c.AlternateBinds ∧
    (c.Sanitize).ServerName = c.ServerName ∧ (c.Sanitize).CA = c.CA ∧
    (c.Sanitize).CredentialsMode = c.CredentialsMode ∧
    (c.Sanitize).CredentialsDir = c.CredentialsDir ∧
    (c.Sanitize).Credentials = c.Credentials ∧ (c.Sanitize).DNSBind = c.DNSBind ∧
    (c.Sanitize).DNSBootstrap = c.DNSBootstrap ∧
    (c.Sanitize).AWSBootstrap = c.AWSBootstrap :=
  ⟨rfl, rfl, rfl, rfl, rfl, rfl, rfl, rfl, rfl, rfl, rfl, rfl, rfl, rfl, rfl, rfl, rfl, rfl⟩

/-- Counterexample for claim C1 as stated: with AWS discovery enabled
and a constructible p2p source, `Peering.Join` places the snapshot
source at position 4, after the p2p (1), AWS (2) and GCloud (3) slots;
the AWS source at position 2 is consulted before the snapshot. -/
theorem join_snapshot_order_refuted : ¬ JoinSnapshotBeforeDiscovery := by
  intro hcl
  have h := hcl ⟨true, true, true, some "2001"⟩ ⟨[], false, true, false⟩ baseConfig "peers.snap"
      [.staticTCP [], .p2p (joinHostPort "prod-cluster" "2001"), .awsAutoscaling 2001 [],
       .staticTCP [], .snapshotFile "peers.snap", .staticTCP []]
      rfl 4 2 rfl rfl
  exact absurd h (by decide)

/-- Claim C1 (amended): `Peering.Join` attempts sources in the fixed
order: explicit static addresses (slot 0), then the secured p2p, AWS and
GCloud discovery slots (1–3), then the persisted snapshot (slot 4), then
DNS discovery (slot 5) — so the snapshot is consulted before the DNS
source but after the other discovery sources. -/
theorem join_attempt_order (env : CredEnv) (t : Peering) (config : Config) (snap : String)
    (l : List Source) (h : Peering.Join env t config snap = .ok l) :
    l.length = 6 ∧
    l.getD 0 (.staticTCP []) = .staticTCP t.Bootstrap ∧
    l.getD 4 (.staticTCP []) = .snapshotFile snap ∧
    ∀ j : Nat, (l.getD j (.staticTCP [])).isLiveDiscovery = true →
      j = 1 ∨ j = 2 ∨ j = 3 ∨ j = 5 := by
  unfold Peering.Join ClusterJoin at h
  injection h with h
  subst h
  refine ⟨rfl, rfl, rfl, ?_⟩
  intro j hj
  match j with
  | 0 => simp [NewStaticTCP, Source.isLiveDiscovery, List.getD] at hj
  | 1 => exact Or.inl rfl
  | 2 => exact Or.inr (Or.inl rfl)
  | 3 => exact Or.inr (Or.inr (Or.inl rfl))
  | 4 => simp [Source.isLiveDiscovery, List.getD] at hj
  | 5 => exact Or.inr (Or.inr (Or.inr rfl))
  | n + 6 => simp [Source.isLiveDiscovery, List.getD] at hj

/-- Witness for the amended C1 at a concrete environment with AWS
discovery enabled. -/
theorem join_attempt_order_witness :
    Peering.Join ⟨true, true, true, some "2001"⟩ ⟨[], false, true, false⟩ baseConfig "peers.snap" =
      .ok [.staticTCP [], .p2p (joinHostPort "prod-cluster" "2001"), .awsAutoscaling 2001 [],
           .staticTCP [], .snapshotFile "peers.snap", .staticTCP []] ∧
    (([.staticTCP [], .p2p (joinHostPort "prod-cluster" "2001"), .awsAutoscaling 2001 [],
       .staticTCP [], .snapshotFile "peers.snap", .staticTCP []] : List Source).length = 6 ∧
     ([.staticTCP [], .p2p (joinHostPort "prod-cluster" "2001"), .awsAutoscaling 2001 [],
       .staticTCP [], .snapshotFile "peers.snap", .staticTCP []] : List Source).getD 0
        (.staticTCP []) = .staticTCP [] ∧
     ([.staticTCP [], .p2p (joinHostPort "prod-cluster" "2001"), .awsAutoscaling 2001 [],
       .staticTCP [], .snapshotFile "peers.snap", .staticTCP []] : List Source).getD 4
        (.staticTCP []) = .snapshotFile "peers.snap" ∧
     ∀ j : Nat,
       (([.staticTCP [], .p2p (joinHostPort "prod-cluster" "2001"), .awsAutoscaling 2001 [],
          .staticTCP [], .snapshotFile "peers.snap", .staticTCP []] : List Source).getD j
         (.staticTCP [])).isLiveDiscovery = true →
       j = 1 ∨ j = 2 ∨ j = 3 ∨ j = 5) :=
  ⟨rfl, join_attempt_order ⟨true, true, true, some "2001"⟩ ⟨[], false, true, false⟩
    baseConfig "peers.snap" _ rfl⟩

/-- Claim C5: when construction of the secured p2p source fails,
`Peering.Join` substitutes the no-op static source in the p2p slot and
proceeds to aggregate the remaining sources, returning them rather than
an error. -/
theorem join_degrades_on_p2p_failure (env : CredEnv) (t : Peering) (config : Config)
    (snap : String) (e : String) (h : p2ppeering env config = .error e) :
    Peering.Join env t config snap = .ok
      [.staticTCP t.Bootstrap, .staticTCP [],
       if t.AWSEnabled then .awsAutoscaling config.p2pPort config.AWSBootstrap.AutoscalingGroups
         else .staticTCP [],
       if t.GCloudEnabled then .gcloudTargetPool config.p2pPort config.MinimumNodes
         else .staticTCP [],
       .snapshotFile snap,
       if t.DNSEnabled then .dns config.p2pPort (config.DNSBootstrap ++ [config.ServerName])
         else .staticTCP []] := by
  simp only [Peering.Join, ClusterJoin, NewStaticTCP, h]

/-- Witness for C5: a missing signer fails p2p construction and the
join still aggregates the remaining sources. -/
theorem join_degrades_on_p2p_failure_witness :
    p2ppeering ⟨false, true, true, some "2001"⟩ baseConfig = .error "unable to create agent signer" ∧
    Peering.Join ⟨false, true, true, some "2001"⟩ ⟨[], false, false, false⟩ baseConfig "peers.snap" =
      .ok [.staticTCP [], .staticTCP [], .staticTCP [], .staticTCP [],
           .snapshotFile "peers.snap", .staticTCP []] :=
  ⟨rfl, join_degrades_on_p2p_failure ⟨false, true, true, some "2001"⟩ ⟨[], false, false, false⟩
    baseConfig "peers.snap" "unable to create agent signer" rfl⟩

/-- A path is under itself followed by anything. -/
theorem underDir_append (dir t : Path) : underDir dir (dir ++ t) = true := by
  induction dir with
  | nil => simp [underDir, List.isPrefixOf]
  | cons a d ih => simp [underDir, List.isPrefixOf] at ih ⊢

/-- A directory is under itself. -/
theorem underDir_refl (dir : Path) : underDir dir dir = true := by
  have h := underDir_append dir []
  simpa using h

/-- Removal by filter really removes: a path under the removed directory
is not among the survivors. -/
theorem not_mem_filter_under (dir p : Path) (l : List Path) (hp : underDir dir p = true) :
    p ∉ l.filter (fun q => !underDir dir q) := by
  simp [List.mem_filter, hp]

/-- Filtering is idempotent. -/
theorem filter_idem {α : Type} (p : α → Bool) (l : List α) :
    (l.filter p).filter p = l.filter p := by
  induction l with
  | nil => rfl
  | cons a t ih => by_cases h : p a = true <;> simp [List.filter_cons, h, ih]

/-- Normal form of a fully successful passive reset: the directory is
emptied and recreated, the log store file is created, and the handles
are the deterministic functions of the directory. -/
theorem passiveReset_ok (dir : Path) (fs : FS)
    (hr : fs.failRemove = false) (hm : fs.failMkdir = false)
    (hl : fs.failLogStore = false) (hs : fs.failSnapStore = false) :
    passiveReset dir fs =
      (.ok (⟨dir ++ ["state.bin"]⟩, ⟨dir, 5⟩),
       { dirs := fs.dirs.filter (fun p => !underDir dir p) ++ [dir],
         files := fs.files.filter (fun p => !underDir dir p) ++ [dir ++ ["state.bin"]],
         failRemove := false, failMkdir := false,
         failLogStore := false, failSnapStore := false },
       [.opRemoveAll dir, .opMkdirAll dir, .opBuildLogStore (dir ++ ["state.bin"]),
        .opBuildSnapshotStore dir 5]) := by
  obtain ⟨ds, fls, fr, fm, fl, fsn⟩ := fs
  dsimp only at hr hm hl hs
  subst hr hm hl hs
  have hdm : dir ∉ ds.filter (fun p => !underDir dir p) :=
    not_mem_filter_under dir dir ds (underDir_refl dir)
  have hfm : (dir ++ ["state.bin"]) ∉ fls.filter (fun p => !underDir dir p) :=
    not_mem_filter_under dir (dir ++ ["state.bin"]) fls (underDir_append dir ["state.bin"])
  simp [passiveReset, removeAll, mkdirAll, RaftStoreFilepath, NewFileSnapshotStore, compact,
    hdm, hfm]

/-- A successful passive reset implies none of the fault flags was
raised. -/
theorem passiveReset_isOk_flags (dir : Path) (fs : FS) (r : Storage × SnapshotStore)
    (fs' : FS) (tr : List FSOp) (h : passiveReset dir fs = (.ok r, fs', tr)) :
    fs.failRemove = false ∧ fs.failMkdir = false ∧ fs.failLogStore = false ∧
    fs.failSnapStore = false := by
  obtain ⟨ds, fls, fr, fm, fl, fsn⟩ := fs
  cases fr <;> cases fm <;> cases fl <;> cases fsn <;>
    simp_all [passiveReset, removeAll, mkdirAll, RaftStoreFilepath, NewFileSnapshotStore,
      compact]

/-- Claim C6: the passive-reset callback performs delete, recreate, log
store and snapshot store strictly in that order; whichever filesystem
step fails produces a composed error naming that step, and after a
failed remove or recreate no store construction is attempted. -/
theorem passiveReset_step_order (dir : Path) (fs : FS) :
    (passiveReset dir fs).2.2.take 2 = [.opRemoveAll dir, .opMkdirAll dir] ∧
    (fs.failRemove = true →
      (passiveReset dir fs).1 = .error (.fsErr (.removeFailed dir)) ∧
      (passiveReset dir fs).2.2 = [.opRemoveAll dir, .opMkdirAll dir]) ∧
    (fs.failRemove = false → fs.failMkdir = true →
      (passiveReset dir fs).1 = .error (.fsErr (.mkdirFailed dir)) ∧
      (passiveReset dir fs).2.2 = [.opRemoveAll dir, .opMkdirAll dir]) ∧
    (fs.failRemove = false → fs.failMkdir = false → fs.failLogStore = true →
      (passiveReset dir fs).1 = .error (.logStoreErr "unable to create raft store") ∧
      (passiveReset dir fs).2.2 =
        [.opRemoveAll dir, .opMkdirAll dir, .opBuildLogStore (dir ++ ["state.bin"])]) ∧
    (fs.failRemove = false → fs.failMkdir = false → fs.failLogStore = false →
      fs.failSnapStore = true →
      (passiveReset dir fs).1 = .error (.snapStoreErr "unable to create snapshot store") ∧
      (passiveReset dir fs).2.2 =
        [.opRemoveAll dir, .opMkdirAll dir, .opBuildLogStore (dir ++ ["state.bin"]),
         .opBuildSnapshotStore dir 5]) ∧
    (fs.failRemove = false → fs.failMkdir = false → fs.failLogStore = false →
      fs.failSnapStore = false →
      ∃ s ss, (passiveReset dir fs).1 = .ok (s, ss) ∧
        (passiveReset dir fs).2.2 =
          [.opRemoveAll dir, .opMkdirAll dir, .opBuildLogStore (dir ++ ["state.bin"]),
           .opBuildSnapshotStore dir 5]) := by
  obtain ⟨ds, fls, fr, fm, fl, fsn⟩ := fs
  cases fr <;> cases fm <;> cases fl <;> cases fsn <;>
    simp [passiveReset, removeAll, mkdirAll, RaftStoreFilepath, NewFileSnapshotStore, compact]

/-- Witness for C6 at a concrete state whose remove step fails. -/
theorem passiveReset_step_order_witness :
    (FS.mk [["r"]] [] true false false false).failRemove = true ∧
    ((passiveReset ["r"] ⟨[["r"]], [], true, false, false, false⟩).1 =
        .error (.fsErr (.removeFailed ["r"])) ∧
      (passiveReset ["r"] ⟨[["r"]], [], true, false, false, false⟩).2.2 =
        [.opRemoveAll ["r"], .opMkdirAll ["r"]]) :=
  ⟨rfl, (passiveReset_step_order ["r"] ⟨[["r"]], [], true, false, false, false⟩).2.1 rfl⟩

/-- Claim C7: the snapshot store the passive-reset callback rebuilds
lives in the consensus storage directory and retains at most 5
snapshots. -/
theorem passiveReset_snapshot_retention (dir : Path) (fs : FS) (s : Storage)
    (ss : SnapshotStore) (fs' : FS) (tr : List FSOp)
    (h : passiveReset dir fs = (.ok (s, ss), fs', tr)) :
    ss.dir = dir ∧ ss.retain = 5 := by
  obtain ⟨hr, hm, hl, hs⟩ := passiveReset_isOk_flags dir fs (s, ss) fs' tr h
  rw [passiveReset_ok dir fs hr hm hl hs] at h
  simp only [Prod.mk.injEq, Except.ok.injEq] at h
  obtain ⟨⟨h1, h2⟩, h3, h4⟩ := h
  subst h2
  exact ⟨rfl, rfl⟩

/-- Witness for C7 at a concrete empty state. -/
theorem passiveReset_snapshot_retention_witness :
    passiveReset ["r"] ⟨[], [], false, false, false, false⟩ =
      (.ok (⟨["r", "state.bin"]⟩, ⟨["r"], 5⟩),
       ⟨[["r"]], [["r", "state.bin"]], false, false, false, false⟩,
       [.opRemoveAll ["r"], .opMkdirAll ["r"], .opBuildLogStore ["r", "state.bin"],
        .opBuildSnapshotStore ["r"] 5]) ∧
    ((⟨["r"], 5⟩ : SnapshotStore).dir = ["r"] ∧ (⟨["r"], 5⟩ : SnapshotStore).retain = 5) :=
  ⟨rfl, passiveReset_snapshot_retention ["r"] ⟨[], [], false, false, false, false⟩ _ _ _ _ rfl⟩

/-- Claim C9: passive reset is idempotent with respect to the final
storage state — running it again on the state it produced yields the
same store handles, the same filesystem state and the same trace. -/
theorem passiveReset_idempotent (dir : Path) (fs : FS) (r : Storage × SnapshotStore)
    (fs' : FS) (tr : List FSOp) (h : passiveReset dir fs = (.ok r, fs', tr)) :
    passiveReset dir fs' = (.ok r, fs', tr) := by
  obtain ⟨hr, hm, hl, hs⟩ := passiveReset_isOk_flags dir fs r fs' tr h
  rw [passiveReset_ok dir fs hr hm hl hs] at h
  simp only [Prod.mk.injEq, Except.ok.injEq] at h
  obtain ⟨h1, h2, h3⟩ := h
  subst h1 h2 h3
  rw [passiveReset_ok dir _ rfl rfl rfl rfl]
  simp [List.filter_append, filter_idem, underDir_refl, underDir_append, List.filter_cons]

/-- Witness for C9 at a concrete dirty state. -/
theorem passiveReset_idempotent_witness :
    passiveReset ["q"] ⟨[["q"], ["q", "old"]], [["q", "old", "f"]], false, false, false, false⟩ =
      (.ok (⟨["q", "state.bin"]⟩, ⟨["q"], 5⟩),
       ⟨[["q"]], [["q", "state.bin"]], false, false, false, false⟩,
       [.opRemoveAll ["q"], .opMkdirAll ["q"], .opBuildLogStore ["q", "state.bin"],
        .opBuildSnapshotStore ["q"] 5]) ∧
    passiveReset ["q"] ⟨[["q"]], [["q", "state.bin"]], false, false, false, false⟩ =
      (.ok (⟨["q", "state.bin"]⟩, ⟨["q"], 5⟩),
       ⟨[["q"]], [["q", "state.bin"]], false, false, false, false⟩,
       [.opRemoveAll ["q"], .opMkdirAll ["q"], .opBuildLogStore ["q", "state.bin"],
        .opBuildSnapshotStore ["q"] 5]) :=
  ⟨rfl, passiveReset_idempotent ["q"]
    ⟨[["q"], ["q", "old"]], [["q", "old", "f"]], false, false, false, false⟩ _ _ _ rfl⟩

/-- Claim C4: `Peering.Raft` (with the default options) starts the
protocol with quorum minimum `MinimumNodes`, single-node mode iff
`MinimumNodes ≤ 1`, and the passive-reset callback for `Root/raft.d`,
after ensuring the storage directory exists. -/
theorem raft_quorum_policy (t : Peering) (conf : Config) (fs : FS)
    (h : fs.failMkdir = false) :
    ∃ p fs1, Peering.Raft t conf fs [] = (.ok p, fs1) ∧
      p.quorumMinimum = conf.MinimumNodes ∧
      (p.enableSingleNode = true ↔ conf.MinimumNodes ≤ 1) ∧
      p.passiveResetCB = some (passiveReset [conf.Root, "raft.d"]) ∧
      [conf.Root, "raft.d"] ∈ fs1.dirs := by
  unfold Peering.Raft
  dsimp only
  rw [show mkdirAll fs [conf.Root, "raft.d"] =
        (none, { fs with dirs := if [conf.Root, "raft.d"] ∈ fs.dirs then fs.dirs
                                 else fs.dirs ++ [[conf.Root, "raft.d"]] }) from by
    simp [mkdirAll, h]]
  refine ⟨_, _, rfl, rfl, ?_, rfl, ?_⟩
  · show decide (conf.MinimumNodes ≤ 1) = true ↔ conf.MinimumNodes ≤ 1
    simp
  · by_cases hmem : [conf.Root, "raft.d"] ∈ fs.dirs
    · simp [hmem]
    · simp [hmem]

/-- Witness for C4 at the default configuration on an empty filesystem. -/
theorem raft_quorum_policy_witness :
    (FS.mk [] [] false false false false).failMkdir = false ∧
    ∃ p fs1,
      Peering.Raft ⟨[], false, false, false⟩ baseConfig ⟨[], [], false, false, false, false⟩ [] =
        (.ok p, fs1) ∧
      p.quorumMinimum = baseConfig.MinimumNodes ∧
      (p.enableSingleNode = true ↔ baseConfig.MinimumNodes ≤ 1) ∧
      p.passiveResetCB = some (passiveReset [baseConfig.Root, "raft.d"]) ∧
      [baseConfig.Root, "raft.d"] ∈ fs1.dirs :=
  ⟨rfl, raft_quorum_policy ⟨[], false, false, false⟩ baseConfig
    ⟨[], [], false, false, false, false⟩ rfl⟩

end BwAgent
